import Mathlib

/-!
Verification development for the Elkano NI 43-101 data tool.

The repository's in-scope logic (derived-metrics calculator, status
classifier, response transformer, extraction fallback pipeline, persistence
gateway) is shallowly embedded below.  JavaScript numbers are modelled as
rationals (`ℚ`), nullable values as `Option`, thrown exceptions as
`Except String` carrying the error message, and JSON values as an inductive
`Json` type.  Enumerated string fields (`report_stage`, risk levels,
priority, status) are modelled as the literal strings the runtime actually
compares, since the TypeScript enum types are erased at runtime.
-/

namespace Elkano

/-- `Number(x.toFixed(2))`: rounding of a rational to 2 decimal places,
round-half-up on the scaled value (ties are immaterial to the spec claims). -/
def round2 (q : ℚ) : ℚ :=
(⌊q * 100 + 1 / 2⌋ : ℚ) / 100

/-- Embedding of `computeIndInfRatio` from `src/src/app/layout.tsx`:
`if (!indicated || !inferred || inferred === 0) return null;
 return Number((indicated / inferred).toFixed(2));`
JavaScript falsiness: `!x` holds for `null` and for `0`. -/
def computeIndInfRatio (indicated inferred : Option ℚ) : Option ℚ :=
match indicated, inferred with
| some i, some f => if i = 0 ∨ f = 0 then none else some (round2 (i / f))
| _, _ => none

/-- Resource-confidence bucket, embedding of `computeResourceConfidence`
from `src/src/app/layout.tsx`:
`if (ratio === null) return null; if (ratio > 2) return 'high';
 if (ratio >= 0.5) return 'moderate'; return 'low';` -/
def computeResourceConfidence (ratio : Option ℚ) : Option String :=
match ratio with
| none => none
| some r => if 2 < r then some "high" else if 1 / 2 ≤ r then some "moderate" else some "low"

/-- The six fields `computeStatus` destructures from its
`Partial<Extraction>` argument. -/
structure StatusFields where
  investigation_priority : Option String
  ind_inf_ratio : Option ℚ
  metallurgy_risk : Option String
  report_stage : Option String
  has_economic_study : Option Bool
  permitting_risk : Option String
deriving Repr, DecidableEq

/-- JavaScript truthiness of a nullable boolean: `null` and `false` are
falsy, only `true` is truthy. -/
def jsTruthyBool : Option Bool → Bool
| some b => b
| none => false

/-- JavaScript evaluation of `ind_inf_ratio && ind_inf_ratio > 2`:
a null ratio is falsy, a zero ratio is falsy, otherwise compare with 2. -/
def ratioTruthyGt2 : Option ℚ → Bool
| none => false
| some r => decide (r ≠ 0) && decide (2 < r)

/-- Embedding of `computeStatus` from `src/src/app/layout.tsx`: first-match
classification into the three status strings stored in the database. -/
def computeStatus (e : StatusFields) : String :=
if (e.investigation_priority == some "high"
    || (ratioTruthyGt2 e.ind_inf_ratio && !(e.metallurgy_risk == some "high"))
    || ((e.report_stage == some "PEA" || e.report_stage == some "Preliminary Assessment")
        && !(jsTruthyBool e.has_economic_study)))
then "🔍 INVESTIGATE"
else if (e.investigation_priority == some "pass"
         || e.metallurgy_risk == some "high"
         || e.permitting_risk == some "high")
then "❌ PASS"
else "👀 WATCH"

/-! ### Typed shape of the external extraction payload (`ClaudeExtractionResponse`) -/

/-- `metadata` section of the external payload. -/
structure Metadata where
  issuer_name : Option String
  project_name : Option String
  effective_date : Option String
  report_stage : Option String
deriving Repr, DecidableEq

/-- `project_basics` section of the external payload. -/
structure ProjectBasics where
  primary_commodity : Option String
  secondary_commodities : Option (List String)
  country : Option String
  province_state : Option String
deriving Repr, DecidableEq

/-- `resource_estimate` section of the external payload. -/
structure ResourceEstimate where
  total_indicated_mt : Option ℚ
  indicated_avg_grade : Option String
  total_inferred_mt : Option ℚ
  inferred_avg_grade : Option String
  total_measured_mt : Option ℚ
  measured_avg_grade : Option String
  cutoff_grade : Option String
  resource_date : Option String
deriving Repr, DecidableEq

/-- `economics` section of the external payload. -/
structure Economics where
  has_economic_study : Option Bool
  npv_aftertax_musd : Option ℚ
  npv_discount_rate : Option ℚ
  irr_aftertax_percent : Option ℚ
  capex_musd : Option ℚ
  opex_per_unit : Option String
  payback_years : Option ℚ
  mine_life_years : Option ℚ
  commodity_price_assumption : Option String
deriving Repr, DecidableEq

/-- `risk_assessment` section of the external payload. -/
structure RiskAssessment where
  metallurgy_risk : Option String
  metallurgy_notes : Option String
  permitting_risk : Option String
  permitting_notes : Option String
  infrastructure_risk : Option String
  geopolitical_risk : Option String
deriving Repr, DecidableEq

/-- `investment_analysis` section of the external payload. -/
structure InvestmentAnalysis where
  investigation_priority : Option String
  priority_rationale : Option String
  next_catalyst : Option String
  catalyst_timeline : Option String
  red_flags : Option (List String)
  positive_signals : Option (List String)
  magellan_score : Option ℚ
deriving Repr, DecidableEq

/-- `derived_metrics` section of the external payload (supplied by the
external model but recomputed locally by the transformer). -/
structure DerivedMetrics where
  indicated_inferred_ratio : Option ℚ
  resource_confidence : Option String
deriving Repr, DecidableEq

/-- The grouped external payload, `ClaudeExtractionResponse` in
`src/src/lib/types` (embedded inside `layout.tsx`). -/
structure ClaudeExtractionResponse where
  metadata : Metadata
  project_basics : ProjectBasics
  resource_estimate : ResourceEstimate
  economics : Economics
  risk_assessment : RiskAssessment
  investment_analysis : InvestmentAnalysis
  derived_metrics : DerivedMetrics
deriving Repr, DecidableEq

/-- Flat storage record, `ExtractionInsert` (an `Extraction` without
`id` and `created_at`). -/
structure ExtractionInsert where
  user_id : String
  pdf_filename : String
  pdf_url : String
  issuer_name : Option String
  project_name : Option String
  effective_date : Option String
  report_stage : Option String
  primary_commodity : Option String
  secondary_commodities : Option (List String)
  country : Option String
  province_state : Option String
  total_indicated_mt : Option ℚ
  indicated_avg_grade : Option String
  total_inferred_mt : Option ℚ
  inferred_avg_grade : Option String
  total_measured_mt : Option ℚ
  measured_avg_grade : Option String
  cutoff_grade : Option String
  resource_date : Option String
  has_economic_study : Option Bool
  npv_aftertax_musd : Option ℚ
  npv_discount_rate : Option ℚ
  irr_aftertax_percent : Option ℚ
  capex_musd : Option ℚ
  opex_per_unit : Option String
  payback_years : Option ℚ
  mine_life_years : Option ℚ
  commodity_price_assumption : Option String
  metallurgy_risk : Option String
  metallurgy_notes : Option String
  permitting_risk : Option String
  permitting_notes : Option String
  infrastructure_risk : Option String
  geopolitical_risk : Option String
  investigation_priority : Option String
  priority_rationale : Option String
  next_catalyst : Option String
  catalyst_timeline : Option String
  red_flags : Option (List String)
  positive_signals : Option (List String)
  magellan_score : Option ℚ
  ind_inf_ratio : Option ℚ
  resource_confidence : Option String
  notes : Option String
  status : Option String
deriving Repr, DecidableEq

/-- Projection of a record to the six fields `computeStatus` reads. -/
def statusFields (e : ExtractionInsert) : StatusFields :=
{ investigation_priority := e.investigation_priority
  ind_inf_ratio := e.ind_inf_ratio
  metallurgy_risk := e.metallurgy_risk
  report_stage := e.report_stage
  has_economic_study := e.has_economic_study
  permitting_risk := e.permitting_risk }

/-- Embedding of `transformClaudeResponseToExtraction` from
`src/src/app/layout.tsx`: flattens the grouped payload into an
`ExtractionInsert`, recomputes the derived fields locally, leaves `notes`
null, builds the record with `status` null and then overwrites `status`
with `computeStatus` of the assembled record. -/
def transformClaudeResponseToExtraction (response : ClaudeExtractionResponse)
    (userId pdfFilename pdfUrl : String) : ExtractionInsert :=
  let indInfRatio := computeIndInfRatio response.resource_estimate.total_indicated_mt
    response.resource_estimate.total_inferred_mt
  let resourceConfidence := computeResourceConfidence indInfRatio
  let extraction : ExtractionInsert :=
    { user_id := userId
      pdf_filename := pdfFilename
      pdf_url := pdfUrl
      issuer_name := response.metadata.issuer_name
      project_name := response.metadata.project_name
      effective_date := response.metadata.effective_date
      report_stage := response.metadata.report_stage
      primary_commodity := response.project_basics.primary_commodity
      secondary_commodities := response.project_basics.secondary_commodities
      country := response.project_basics.country
      province_state := response.project_basics.province_state
      total_indicated_mt := response.resource_estimate.total_indicated_mt
      indicated_avg_grade := response.resource_estimate.indicated_avg_grade
      total_inferred_mt := response.resource_estimate.total_inferred_mt
      inferred_avg_grade := response.resource_estimate.inferred_avg_grade
      total_measured_mt := response.resource_estimate.total_measured_mt
      measured_avg_grade := response.resource_estimate.measured_avg_grade
      cutoff_grade := response.resource_estimate.cutoff_grade
      resource_date := response.resource_estimate.resource_date
      has_economic_study := response.economics.has_economic_study
      npv_aftertax_musd := response.economics.npv_aftertax_musd
      npv_discount_rate := response.economics.npv_discount_rate
      irr_aftertax_percent := response.economics.irr_aftertax_percent
      capex_musd := response.economics.capex_musd
      opex_per_unit := response.economics.opex_per_unit
      payback_years := response.economics.payback_years
      mine_life_years := response.economics.mine_life_years
      commodity_price_assumption := response.economics.commodity_price_assumption
      metallurgy_risk := response.risk_assessment.metallurgy_risk
      metallurgy_notes := response.risk_assessment.metallurgy_notes
      permitting_risk := response.risk_assessment.permitting_risk
      permitting_notes := response.risk_assessment.permitting_notes
      infrastructure_risk := response.risk_assessment.infrastructure_risk
      geopolitical_risk := response.risk_assessment.geopolitical_risk
      investigation_priority := response.investment_analysis.investigation_priority
      priority_rationale := response.investment_analysis.priority_rationale
      next_catalyst := response.investment_analysis.next_catalyst
      catalyst_timeline := response.investment_analysis.catalyst_timeline
      red_flags := response.investment_analysis.red_flags
      positive_signals := response.investment_analysis.positive_signals
      magellan_score := response.investment_analysis.magellan_score
      ind_inf_ratio := indInfRatio
      resource_confidence := resourceConfidence
      notes := none
      status := none }
  { extraction with status := some (computeStatus (statusFields extraction)) }

/-! ### Untyped JSON values and the payload validator -/

/-- JSON values, the possible results of `JSON.parse` on the external
reply.  Objects are ordered key/value lists. -/
inductive Json where
  | null : Json
  | bool (b : Bool) : Json
  | num (q : ℚ) : Json
  | str (s : String) : Json
  | arr (xs : List Json) : Json
  | obj (fields : List (String × Json)) : Json

/-- The seven required top-level sections checked by the validator. -/
def requiredKeys : List String :=
["metadata", "project_basics", "resource_estimate", "economics",
 "risk_assessment", "investment_analysis", "derived_metrics"]

/-- `'key' in obj` for a JSON value: only objects have string keys
(arrays and primitives never contain the section names). -/
def jsonHasKey : Json → String → Bool
| Json.obj fields, k => fields.any (fun kv => kv.1 == k)
| _, _ => false

/-- Embedding of `validateExtractionResponse` from `src/src/lib/claude.ts`:
true iff the value is a (non-null) object containing all seven required
top-level keys; the values under the keys are not inspected. -/
def validateExtractionResponse (data : Json) : Bool :=
match data with
| Json.obj _ => requiredKeys.all (fun k => jsonHasKey data k)
| _ => false

/-- First value stored under a key of an object, `obj[k]`. -/
def jsonGet : Json → String → Option Json
| Json.obj fields, k => (fields.find? (fun kv => kv.1 == k)).map Prod.snd
| _, _ => none

/-- Chained property access on a possibly-absent JSON value. -/
def optGet (oj : Option Json) (k : String) : Option Json :=
oj.bind (fun j => jsonGet j k)

/-- Read a JSON value as a nullable string (models the unchecked cast of
the parsed reply: a value that is not a string is read as null). -/
def asStr : Option Json → Option String
| some (Json.str s) => some s
| _ => none

/-- Read a JSON value as a nullable number. -/
def asNum : Option Json → Option ℚ
| some (Json.num q) => some q
| _ => none

/-- Read a JSON value as a nullable boolean. -/
def asBool : Option Json → Option Bool
| some (Json.bool b) => some b
| _ => none

/-- Read a JSON value as a nullable string array (non-string elements are
dropped by the model of the unchecked cast). -/
def asStrList : Option Json → Option (List String)
| some (Json.arr xs) => some (xs.filterMap (fun x => match x with
    | Json.str s => some s
    | _ => none))
| _ => none

/-- Model of the unchecked `JSON.parse(...) as ClaudeExtractionResponse`
cast in the route: field-by-field read of the parsed JSON into the typed
payload shape. -/
def decodeResponse (j : Json) : ClaudeExtractionResponse :=
{ metadata :=
    { issuer_name := asStr (optGet (jsonGet j "metadata") "issuer_name")
      project_name := asStr (optGet (jsonGet j "metadata") "project_name")
      effective_date := asStr (optGet (jsonGet j "metadata") "effective_date")
      report_stage := asStr (optGet (jsonGet j "metadata") "report_stage") }
  project_basics :=
    { primary_commodity := asStr (optGet (jsonGet j "project_basics") "primary_commodity")
      secondary_commodities := asStrList (optGet (jsonGet j "project_basics") "secondary_commodities")
      country := asStr (optGet (jsonGet j "project_basics") "country")
      province_state := asStr (optGet (jsonGet j "project_basics") "province_state") }
  resource_estimate :=
    { total_indicated_mt := asNum (optGet (jsonGet j "resource_estimate") "total_indicated_mt")
      indicated_avg_grade := asStr (optGet (jsonGet j "resource_estimate") "indicated_avg_grade")
      total_inferred_mt := asNum (optGet (jsonGet j "resource_estimate") "total_inferred_mt")
      inferred_avg_grade := asStr (optGet (jsonGet j "resource_estimate") "inferred_avg_grade")
      total_measured_mt := asNum (optGet (jsonGet j "resource_estimate") "total_measured_mt")
      measured_avg_grade := asStr (optGet (jsonGet j "resource_estimate") "measured_avg_grade")
      cutoff_grade := asStr (optGet (jsonGet j "resource_estimate") "cutoff_grade")
      resource_date := asStr (optGet (jsonGet j "resource_estimate") "resource_date") }
  economics :=
    { has_economic_study := asBool (optGet (jsonGet j "economics") "has_economic_study")
      npv_aftertax_musd := asNum (optGet (jsonGet j "economics") "npv_aftertax_musd")
      npv_discount_rate := asNum (optGet (jsonGet j "economics") "npv_discount_rate")
      irr_aftertax_percent := asNum (optGet (jsonGet j "economics") "irr_aftertax_percent")
      capex_musd := asNum (optGet (jsonGet j "economics") "capex_musd")
      opex_per_unit := asStr (optGet (jsonGet j "economics") "opex_per_unit")
      payback_years := asNum (optGet (jsonGet j "economics") "payback_years")
      mine_life_years := asNum (optGet (jsonGet j "economics") "mine_life_years")
      commodity_price_assumption := asStr (optGet (jsonGet j "economics") "commodity_price_assumption") }
  risk_assessment :=
    { metallurgy_risk := asStr (optGet (jsonGet j "risk_assessment") "metallurgy_risk")
      metallurgy_notes := asStr (optGet (jsonGet j "risk_assessment") "metallurgy_notes")
      permitting_risk := asStr (optGet (jsonGet j "risk_assessment") "permitting_risk")
      permitting_notes := asStr (optGet (jsonGet j "risk_assessment") "permitting_notes")
      infrastructure_risk := asStr (optGet (jsonGet j "risk_assessment") "infrastructure_risk")
      geopolitical_risk := asStr (optGet (jsonGet j "risk_assessment") "geopolitical_risk") }
  investment_analysis :=
    { investigation_priority := asStr (optGet (jsonGet j "investment_analysis") "investigation_priority")
      priority_rationale := asStr (optGet (jsonGet j "investment_analysis") "priority_rationale")
      next_catalyst := asStr (optGet (jsonGet j "investment_analysis") "next_catalyst")
      catalyst_timeline := asStr (optGet (jsonGet j "investment_analysis") "catalyst_timeline")
      red_flags := asStrList (optGet (jsonGet j "investment_analysis") "red_flags")
      positive_signals := asStrList (optGet (jsonGet j "investment_analysis") "positive_signals")
      magellan_score := asNum (optGet (jsonGet j "investment_analysis") "magellan_score") }
  derived_metrics :=
    { indicated_inferred_ratio := asNum (optGet (jsonGet j "derived_metrics") "indicated_inferred_ratio")
      resource_confidence := asStr (optGet (jsonGet j "derived_metrics") "resource_confidence") } }

/-- Post-extraction phase of `POST` in `src/src/app/api/extract/route.ts`:
validate the parsed payload, and only when validation passes transform it
into the record that is inserted; otherwise answer with the validation
error and produce no record. -/
def routeAfterExtract (j : Json) (userId fileName publicUrl : String) :
    Except String ExtractionInsert :=
  if validateExtractionResponse j then
    Except.ok (transformClaudeResponseToExtraction (decodeResponse j) userId fileName publicUrl)
  else
    Except.error "Invalid extraction response from AI"

/-! ### Extraction fallback pipeline (`src/src/lib/claude.ts`) -/

/-- `errorMsg.includes(pat)`: substring containment. -/
def strIncludes (s pat : String) : Bool :=
decide (pat.data <:+: s.data)

/-- The size-limit pattern test from `extractFromPdf`:
`errorMsg.includes('100 PDF pages') || errorMsg.includes('maximum')`. -/
def isSizeLimitError (msg : String) : Bool :=
strIncludes msg "100 PDF pages" || strIncludes msg "maximum"

/-- A content block of the external API reply: a text block or any other
block kind. -/
inductive ContentBlock where
  | text (s : String) : ContentBlock
  | other : ContentBlock
deriving Repr, DecidableEq

/-- The external API reply (`Anthropic.Message`): a list of content
blocks. -/
structure ApiMessage where
  content : List ContentBlock
deriving Repr, DecidableEq

/-- `response.content.find(block => block.type === 'text')`, projected to
the block's text. -/
def firstTextBlock (blocks : List ContentBlock) : Option String :=
match blocks.find? (fun b => match b with
  | ContentBlock.text _ => true
  | ContentBlock.other => false) with
| some (ContentBlock.text s) => some s
| _ => none

/-- The fence-stripping in `parseClaudeResponse`: trim, drop a leading
triple-backtick fence (with or without a language tag), drop a trailing
fence, trim again. -/
def stripCodeFences (raw : String) : String :=
  let s1 := raw.trim
  let s2 := if s1.startsWith "```json" then s1.drop 7
    else if s1.startsWith "```" then s1.drop 3
    else s1
  let s3 := if s2.endsWith "```" then s2.dropRight 3 else s2
  s3.trim

/-- Embedding of `parseClaudeResponse`: find the first text block (error
`No text response from Claude` when there is none), strip code fences, and
run `JSON.parse` — modelled as the oracle `jsonParse`, whose error carries
the runtime's message. -/
def parseClaudeResponse (jsonParse : String → Except String Json)
    (response : ApiMessage) : Except String Json :=
  match firstTextBlock response.content with
  | none => Except.error "No text response from Claude"
  | some t => jsonParse (stripCodeFences t)

/-- The body of the `try` block of `extractFromPdf`: the native API call
(an `Except` carrying the thrown message on failure) followed by parsing
of its reply. -/
def nativeAttempt (jsonParse : String → Except String Json)
    (nativeCall : Except String ApiMessage) : Except String Json :=
  match nativeCall with
  | Except.ok m => parseClaudeResponse jsonParse m
  | Except.error msg => Except.error msg

/-- Embedding of `extractFromPdf`: run the native attempt; on a failure
whose message matches the size-limit pattern, return the text-fallback
result; otherwise re-throw.  The second component counts how many times
the text-fallback path (`extractFromPdfText`) is invoked. -/
def extractFromPdf (jsonParse : String → Except String Json)
    (nativeCall : Except String ApiMessage)
    (textFallbackResult : Except String Json) : Except String Json × Nat :=
  match nativeAttempt jsonParse nativeCall with
  | Except.ok j => (Except.ok j, 0)
  | Except.error msg =>
      if isSizeLimitError msg then (textFallbackResult, 1) else (Except.error msg, 0)

/-- `const maxChars = 150000` in `extractFromPdfText`. -/
def maxChars : Nat := 150000

/-- The marker appended when the extracted text is truncated. -/
def truncationMarker : String := "\n\n[Document truncated due to length...]"

/-- The truncation step of `extractFromPdfText`:
`pdfText.length > maxChars ? pdfText.slice(0, maxChars) + marker : pdfText`. -/
def truncateExtractedText (pdfText : String) : String :=
  if pdfText.length > maxChars then pdfText.take maxChars ++ truncationMarker
  else pdfText

/-- The separator placed between the instruction prompt and the document
text in the fallback request. -/
def documentSeparator : String := "\n\n---\n\nDOCUMENT TEXT:\n\n"

/-- The user-message content submitted by `extractFromPdfText`:
the instruction prompt, the separator, then the (possibly truncated)
document text. -/
def submittedUserContent (extractionPrompt pdfText : String) : String :=
  extractionPrompt ++ documentSeparator ++ truncateExtractedText pdfText

/-! ### Persistence gateway (`layout.tsx` helpers over the RLS-guarded
`extractions` table of `src/supabase/schema.sql`) -/

/-- A stored row of the `extractions` table: primary key, creation
timestamp, and the inserted record (whose `user_id` is the owner). -/
structure Row where
  id : String
  created_at : Nat
  data : ExtractionInsert
deriving Repr, DecidableEq

/-- The row-level-security predicate of every policy on `extractions`:
`USING (auth.uid() = user_id)` — a row is visible to its owner only. -/
def visibleTo (uid : String) (r : Row) : Bool :=
r.data.user_id == uid

/-- `.from('extractions').select('*').eq('id', id)` under RLS: the rows
matching the id filter among the rows visible to the caller. -/
def selectById (db : List Row) (uid id : String) : List Row :=
db.filter (fun r => visibleTo uid r && r.id == id)

/-- `.single()`: succeeds iff exactly one row is returned, otherwise the
PostgREST no-unique-row error. -/
def pgSingle (rows : List Row) : Except String Row :=
match rows with
| [r] => Except.ok r
| _ => Except.error "PGRST116: JSON object requested, multiple (or no) rows returned"

/-- Embedding of `getExtraction`: select by id under RLS, `.single()`, and
return null on any error. -/
def getExtraction (db : List Row) (uid id : String) : Option Row :=
match pgSingle (selectById db uid id) with
| Except.ok r => some r
| Except.error _ => none

/-- Database contents after `updateExtraction`: under RLS only rows
visible to the caller and matching the id are patched. -/
def updateExtractionDb (db : List Row) (uid id : String)
    (patch : ExtractionInsert → ExtractionInsert) : List Row :=
db.map (fun r => if visibleTo uid r && r.id == id then { r with data := patch r.data } else r)

/-- Embedding of `updateExtraction`'s returned value:
`.update(updates).eq('id', id).select().single()` — the patched visible
rows passed through `.single()`; the code throws on error. -/
def updateExtraction (db : List Row) (uid id : String)
    (patch : ExtractionInsert → ExtractionInsert) : Except String Row :=
pgSingle ((selectById db uid id).map (fun r => { r with data := patch r.data }))

/-- Database contents after `deleteExtraction`: under RLS only visible
rows matching the id are removed. -/
def deleteExtractionDb (db : List Row) (uid id : String) : List Row :=
db.filter (fun r => !(visibleTo uid r && r.id == id))

/-- Embedding of `deleteExtraction`'s returned value: the delete reports
an error only on a database failure — deleting zero rows is not an error,
so the function returns `true`. -/
def deleteExtraction (_db : List Row) (_uid _id : String) : Except String Bool :=
Except.ok true

/-! ### Spec-side reference definitions (from the specification's words,
for comparison with the source embeddings) -/

/-- Modelled from the spec's words for `computeRatio` (§4.1): null iff
either input is null or the denominator equals zero; otherwise the
quotient rounded to 2 decimals.  Compared against `computeIndInfRatio`. -/
def computeRatioSpec : Option ℚ → Option ℚ → Option ℚ
| some i, some f => if f = 0 then none else some (round2 (i / f))
| _, _ => none

/-- The spec's reading of "ratio > 2" for a nullable ratio: the ratio is
present and greater than 2. -/
def specRatioGt2 : Option ℚ → Bool
| none => false
| some r => decide (2 < r)

/-- Modelled from the spec's words for the status classifier (§4.2),
first match wins, for comparison with `computeStatus`. -/
def computeStatusSpec (e : StatusFields) : String :=
if (e.investigation_priority == some "high"
    || (specRatioGt2 e.ind_inf_ratio && !(e.metallurgy_risk == some "high"))
    || ((e.report_stage == some "PEA" || e.report_stage == some "Preliminary Assessment")
        && !(e.has_economic_study == some true)))
then "🔍 INVESTIGATE"
else if (e.investigation_priority == some "pass"
         || e.metallurgy_risk == some "high"
         || e.permitting_risk == some "high")
then "❌ PASS"
else "👀 WATCH"

/-! ### Sample values for witnesses and counterexamples -/

/-- A payload object with all seven required sections present but every
section bound to `null`: the validator does not inspect section values. -/
def sampleAllNullPayload : Json :=
Json.obj (requiredKeys.map (fun k => (k, Json.null)))

/-- A payload object missing six of the seven required sections. -/
def sampleMissingSections : Json :=
Json.obj [("metadata", Json.null)]

/-- A record with every nullable field null, used as a base for concrete
persistence rows. -/
def blankRecord (uid : String) : ExtractionInsert :=
{ user_id := uid
  pdf_filename := "report.pdf"
  pdf_url := "https://example.com/report.pdf"
  issuer_name := none
  project_name := none
  effective_date := none
  report_stage := none
  primary_commodity := none
  secondary_commodities := none
  country := none
  province_state := none
  total_indicated_mt := none
  indicated_avg_grade := none
  total_inferred_mt := none
  inferred_avg_grade := none
  total_measured_mt := none
  measured_avg_grade := none
  cutoff_grade := none
  resource_date := none
  has_economic_study := none
  npv_aftertax_musd := none
  npv_discount_rate := none
  irr_aftertax_percent := none
  capex_musd := none
  opex_per_unit := none
  payback_years := none
  mine_life_years := none
  commodity_price_assumption := none
  metallurgy_risk := none
  metallurgy_notes := none
  permitting_risk := none
  permitting_notes := none
  infrastructure_risk := none
  geopolitical_risk := none
  investigation_priority := none
  priority_rationale := none
  next_catalyst := none
  catalyst_timeline := none
  red_flags := none
  positive_signals := none
  magellan_score := none
  ind_inf_ratio := none
  resource_confidence := none
  notes := none
  status := none }

/-- A stored row owned by user `alice`. -/
def aliceRow : Row :=
{ id := "row1", created_at := 0, data := blankRecord "alice" }

/-! ### Helper lemmas -/

/-- The JavaScript truthiness guard in `ind_inf_ratio && ind_inf_ratio > 2`
is redundant: a ratio greater than 2 is in particular nonzero. -/
theorem ratioTruthyGt2_eq_specRatioGt2 (o : Option ℚ) :
    ratioTruthyGt2 o = specRatioGt2 o := by
  cases o with
  | none => rfl
  | some r =>
    by_cases h : 2 < r
    · have hne : r ≠ 0 := by
        intro h0
        rw [h0] at h
        norm_num at h
      simp [ratioTruthyGt2, specRatioGt2, h, hne]
    · simp [ratioTruthyGt2, specRatioGt2, h]

/-- JavaScript truthiness of a nullable boolean agrees with comparison
against `true`. -/
theorem jsTruthyBool_eq_beq (o : Option Bool) : jsTruthyBool o = (o == some true) := by
  cases o with
  | none => rfl
  | some b => cases b <;> rfl

/-! ### Claim theorems -/

/-- C1, counterexample: the claim says `computeRatio` is null iff
indicated is null, inferred is null, or inferred equals 0; but the source
uses JavaScript falsiness (`!indicated`), so a zero *indicated* tonnage
also yields null, where the claim requires `0/4` rounded, i.e. `0`. -/
theorem computeIndInfRatio_zero_indicated_counterexample :
    computeIndInfRatio (some 0) (some 4) = none ∧
    computeRatioSpec (some 0) (some 4) = some 0 := by
  constructor
  · decide
  · norm_num [computeRatioSpec, round2]

/-- C1, amended: `computeIndInfRatio` returns null iff indicated is null
or zero, or inferred is null or zero; otherwise it returns
indicated/inferred rounded to 2 decimal places; `computeRatio(10,4) = 2.50`
and `computeRatio(5,0) = null`. -/
theorem computeIndInfRatio_spec (indicated inferred : Option ℚ) :
    (computeIndInfRatio indicated inferred = none ↔
      indicated = none ∨ indicated = some 0 ∨ inferred = none ∨ inferred = some 0) ∧
    (∀ i f, indicated = some i → inferred = some f → i ≠ 0 → f ≠ 0 →
      computeIndInfRatio indicated inferred = some (round2 (i / f))) ∧
    computeIndInfRatio (some 10) (some 4) = some (5 / 2) ∧
    computeIndInfRatio (some 5) (some 0) = none := by
  refine ⟨?_, ?_, by norm_num [computeIndInfRatio, round2], by decide⟩
  · match indicated, inferred with
    | none, none => simp [computeIndInfRatio]
    | none, some f => simp [computeIndInfRatio]
    | some i, none => simp [computeIndInfRatio]
    | some i, some f =>
      by_cases hi : i = 0
      · simp [computeIndInfRatio, hi]
      · by_cases hf : f = 0
        · simp [computeIndInfRatio, hi, hf]
        · simp [computeIndInfRatio, hi, hf]
  · intro i f hi hf hi0 hf0
    subst hi
    subst hf
    simp [computeIndInfRatio, hi0, hf0]

/-- C1, witness: the amended theorem applied at indicated = 9,
inferred = 3. -/
theorem computeIndInfRatio_spec_witness :
    computeIndInfRatio (some 9) (some 3) = some (round2 (9 / 3)) :=
  (computeIndInfRatio_spec (some 9) (some 3)).2.1 9 3 rfl rfl (by norm_num) (by norm_num)

/-- C2: the status classifier agrees everywhere with the spec's
first-match-wins rules (Investigate, then Pass, then Watch), and a record
with priority `high` is classified Investigate regardless of its
metallurgy risk. -/
theorem computeStatus_spec (e : StatusFields) :
    computeStatus e = computeStatusSpec e ∧
    (e.investigation_priority = some "high" → computeStatus e = "🔍 INVESTIGATE") := by
  constructor
  · simp only [computeStatus, computeStatusSpec, ratioTruthyGt2_eq_specRatioGt2,
      jsTruthyBool_eq_beq]
  · intro h
    simp [computeStatus, h]

/-- C2, witness: a record with priority = high and metallurgy risk = high
is classified Investigate, not Pass. -/
theorem computeStatus_spec_witness :
    computeStatus ⟨some "high", none, some "high", none, none, none⟩ =
      computeStatusSpec ⟨some "high", none, some "high", none, none, none⟩ ∧
    computeStatus ⟨some "high", none, some "high", none, none, none⟩ = "🔍 INVESTIGATE" :=
  ⟨(computeStatus_spec ⟨some "high", none, some "high", none, none, none⟩).1,
   (computeStatus_spec ⟨some "high", none, some "high", none, none, none⟩).2 rfl⟩

/-- C3: `computeResourceConfidence` is null on a null ratio, `high` above
2, `moderate` on `[0.5, 2]`, `low` below 0.5; the boundaries 2 and 0.5 map
to `moderate`, while 2.01 maps to `high` and 0.49 to `low`. -/
theorem computeResourceConfidence_spec (ratio : Option ℚ) :
    (ratio = none → computeResourceConfidence ratio = none) ∧
    (∀ r, ratio = some r → 2 < r → computeResourceConfidence ratio = some "high") ∧
    (∀ r, ratio = some r → 1 / 2 ≤ r → r ≤ 2 → computeResourceConfidence ratio = some "moderate") ∧
    (∀ r, ratio = some r → r < 1 / 2 → computeResourceConfidence ratio = some "low") ∧
    computeResourceConfidence (some 2) = some "moderate" ∧
    computeResourceConfidence (some (201 / 100)) = some "high" ∧
    computeResourceConfidence (some (1 / 2)) = some "moderate" ∧
    computeResourceConfidence (some (49 / 100)) = some "low" := by
  refine ⟨?_, ?_, ?_, ?_, by norm_num [computeResourceConfidence],
    by norm_num [computeResourceConfidence], by norm_num [computeResourceConfidence],
    by norm_num [computeResourceConfidence]⟩
  · intro h
    subst h
    rfl
  · intro r h h2
    subst h
    simp [computeResourceConfidence, h2]
  · intro r h hlo hhi
    subst h
    have h2 : ¬(2 < r) := not_lt.mpr hhi
    simp only [computeResourceConfidence, if_neg h2, if_pos hlo]
  · intro r h hlt
    subst h
    have h2 : ¬(2 < r) := by
      intro hc
      have : (1 : ℚ) / 2 < 2 := by norm_num
      exact absurd (lt_trans hlt (lt_trans this hc)) (lt_irrefl r)
    have hlo : ¬(1 / 2 ≤ r) := not_le.mpr hlt
    simp only [computeResourceConfidence, if_neg h2, if_neg hlo]

/-- C3, witness: the theorem applied on each branch at concrete ratios. -/
theorem computeResourceConfidence_spec_witness :
    computeResourceConfidence none = none ∧
    computeResourceConfidence (some 3) = some "high" ∧
    computeResourceConfidence (some 1) = some "moderate" ∧
    computeResourceConfidence (some (1 / 4)) = some "low" :=
  ⟨(computeResourceConfidence_spec none).1 rfl,
   (computeResourceConfidence_spec (some 3)).2.1 3 rfl (by norm_num),
   (computeResourceConfidence_spec (some 1)).2.2.1 1 rfl (by norm_num) (by norm_num),
   (computeResourceConfidence_spec (some (1 / 4))).2.2.2.1 (1 / 4) rfl (by norm_num)⟩

/-- C7: the transformed record's derived fields are computed locally —
`ind_inf_ratio` is `computeIndInfRatio` of the payload's indicated and
inferred tonnages, `resource_confidence` is `computeResourceConfidence` of
that ratio, `status` is `computeStatus` of the assembled record — the
result is unaffected by the payload's own `derived_metrics` section, and
`notes` is null. -/
theorem transformClaudeResponseToExtraction_derived (response : ClaudeExtractionResponse)
    (userId pdfFilename pdfUrl : String) :
    (transformClaudeResponseToExtraction response userId pdfFilename pdfUrl).ind_inf_ratio =
      computeIndInfRatio response.resource_estimate.total_indicated_mt
        response.resource_estimate.total_inferred_mt ∧
    (transformClaudeResponseToExtraction response userId pdfFilename pdfUrl).resource_confidence =
      computeResourceConfidence
        (transformClaudeResponseToExtraction response userId pdfFilename pdfUrl).ind_inf_ratio ∧
    (transformClaudeResponseToExtraction response userId pdfFilename pdfUrl).status =
      some (computeStatus
        (statusFields (transformClaudeResponseToExtraction response userId pdfFilename pdfUrl))) ∧
    (transformClaudeResponseToExtraction response userId pdfFilename pdfUrl).notes = none ∧
    (∀ dm : DerivedMetrics,
      transformClaudeResponseToExtraction { response with derived_metrics := dm }
          userId pdfFilename pdfUrl =
        transformClaudeResponseToExtraction response userId pdfFilename pdfUrl) :=
  ⟨rfl, rfl, rfl, rfl, fun _ => rfl⟩

/-- Keys of a JSON object are exactly what `jsonHasKey` reports. -/
theorem jsonHasKey_obj_iff (fields : List (String × Json)) (k : String) :
    jsonHasKey (Json.obj fields) k = true ↔ k ∈ fields.map Prod.fst := by
  simp [jsonHasKey, List.any_eq_true, List.mem_map, beq_iff_eq]

/-- C10: the validator accepts exactly the JSON objects whose key set
includes the seven required section names, never inspecting the section
values (all-null sections pass); every non-object value and every object
missing a section is rejected. -/
theorem validateExtractionResponse_spec (data : Json) :
    (validateExtractionResponse data = true ↔
      ∃ fields, data = Json.obj fields ∧ ∀ k ∈ requiredKeys, k ∈ fields.map Prod.fst) ∧
    validateExtractionResponse sampleAllNullPayload = true ∧
    validateExtractionResponse sampleMissingSections = false ∧
    validateExtractionResponse (Json.num 5) = false ∧
    validateExtractionResponse Json.null = false := by
  refine ⟨?_, by decide, by decide, rfl, rfl⟩
  cases data with
  | obj fields =>
    simp only [validateExtractionResponse, List.all_eq_true, jsonHasKey_obj_iff]
    constructor
    · intro h
      exact ⟨fields, rfl, h⟩
    · rintro ⟨fields2, heq, h⟩
      cases heq
      exact h
  | null => simp [validateExtractionResponse]
  | bool b => simp [validateExtractionResponse]
  | num q => simp [validateExtractionResponse]
  | str s => simp [validateExtractionResponse]
  | arr xs => simp [validateExtractionResponse]

/-- C4: a payload missing at least one of the seven required top-level
sections makes the route answer with the validation error; the
transformation is short-circuited and no record is produced. -/
theorem routeAfterExtract_missing_section (j : Json) (userId fileName publicUrl : String)
    (h : ∃ k ∈ requiredKeys, jsonHasKey j k = false) :
    routeAfterExtract j userId fileName publicUrl =
      Except.error "Invalid extraction response from AI" := by
  obtain ⟨k, hk, hfalse⟩ := h
  have hv : validateExtractionResponse j = false := by
    cases j with
    | obj fields =>
      by_contra hne
      have hall : validateExtractionResponse (Json.obj fields) = true := by
        revert hne
        cases validateExtractionResponse (Json.obj fields) <;> simp
      have := List.all_eq_true.mp hall k hk
      rw [hfalse] at this
      exact Bool.false_ne_true this
    | null => rfl
    | bool b => rfl
    | num q => rfl
    | str s => rfl
    | arr xs => rfl
  simp [routeAfterExtract, hv]

/-- C4, witness: the theorem applied to a payload carrying only the
`metadata` section. -/
theorem routeAfterExtract_missing_section_witness :
    routeAfterExtract sampleMissingSections "user1" "report.pdf"
        "https://example.com/report.pdf" =
      Except.error "Invalid extraction response from AI" :=
  routeAfterExtract_missing_section sampleMissingSections "user1" "report.pdf"
    "https://example.com/report.pdf" ⟨"economics", by decide, by decide⟩

/-- C5: when the native attempt fails, the text-fallback path is invoked
exactly once and its result returned iff the failure message matches the
size-limit pattern; any other failure propagates without attempting the
text path. -/
theorem extractFromPdf_fallback (jsonParse : String → Except String Json)
    (nativeCall : Except String ApiMessage) (textFallbackResult : Except String Json)
    (msg : String) (hfail : nativeAttempt jsonParse nativeCall = Except.error msg) :
    (isSizeLimitError msg = true →
      extractFromPdf jsonParse nativeCall textFallbackResult = (textFallbackResult, 1)) ∧
    (isSizeLimitError msg = false →
      extractFromPdf jsonParse nativeCall textFallbackResult = (Except.error msg, 0)) := by
  constructor <;> intro hp <;> simp [extractFromPdf, hfail, hp]

/-- C5, witness: the theorem applied to a size-limit failure (fallback
result returned, one invocation) and to an unrelated failure (error
propagated, no invocation). -/
theorem extractFromPdf_fallback_witness :
    extractFromPdf (fun _ => Except.error "parse")
        (Except.error "This request would exceed the maximum of 100 PDF pages")
        (Except.ok Json.null) = (Except.ok Json.null, 1) ∧
    extractFromPdf (fun _ => Except.error "parse")
        (Except.error "Internal server error") (Except.ok Json.null) =
      (Except.error "Internal server error", 0) :=
  ⟨(extractFromPdf_fallback (fun _ => Except.error "parse")
      (Except.error "This request would exceed the maximum of 100 PDF pages")
      (Except.ok Json.null) _ rfl).1 (by decide),
   (extractFromPdf_fallback (fun _ => Except.error "parse")
      (Except.error "Internal server error") (Except.ok Json.null) _ rfl).2 (by decide)⟩

/-- C6, counterexample: a reply whose text is not valid JSON does not
always terminate the pipeline as a failure — when the runtime's parse
error message happens to contain the word `maximum` (runtimes echo a
fragment of the unparseable input in the message), the size-limit pattern
matches and the text fallback is invoked instead, returning its result. -/
theorem parseFailure_fallback_counterexample :
    parseClaudeResponse
        (fun _ => Except.error "Unexpected token 'T', \"The maximum\" is not valid JSON")
        (ApiMessage.mk [ContentBlock.text "The maximum resource case is unclear."]) =
      Except.error "Unexpected token 'T', \"The maximum\" is not valid JSON" ∧
    extractFromPdf
        (fun _ => Except.error "Unexpected token 'T', \"The maximum\" is not valid JSON")
        (Except.ok (ApiMessage.mk [ContentBlock.text "The maximum resource case is unclear."]))
        (Except.ok Json.null) =
      (Except.ok Json.null, 1) := by
  constructor
  · rfl
  · simp [extractFromPdf, nativeAttempt, parseClaudeResponse, firstTextBlock]
    decide

/-- C6, amended: a reply whose parse fails terminates the pipeline as a
failure whenever the parse-failure message does not match the size-limit
pattern (in particular the fixed no-text-content message never matches);
a parse failure whose message does match triggers the one-shot text
fallback instead; in every case the text path runs at most once, so the
extraction is never silently retried. -/
theorem parseFailure_terminates (jsonParse : String → Except String Json)
    (m : ApiMessage) (textFallbackResult : Except String Json) (msg : String) :
    (parseClaudeResponse jsonParse m = Except.error msg → isSizeLimitError msg = false →
      extractFromPdf jsonParse (Except.ok m) textFallbackResult = (Except.error msg, 0)) ∧
    (firstTextBlock m.content = none →
      parseClaudeResponse jsonParse m = Except.error "No text response from Claude") ∧
    isSizeLimitError "No text response from Claude" = false ∧
    (extractFromPdf jsonParse (Except.ok m) textFallbackResult).2 ≤ 1 := by
  refine ⟨?_, ?_, by decide, ?_⟩
  · intro hp hs
    simp [extractFromPdf, nativeAttempt, hp, hs]
  · intro hn
    simp [parseClaudeResponse, hn]
  · cases hna : nativeAttempt jsonParse (Except.ok m) with
    | ok j => simp [extractFromPdf, hna]
    | error e =>
      by_cases hs : isSizeLimitError e <;> simp [extractFromPdf, hna, hs]

/-- C6, witness: the amended theorem applied to a malformed reply whose
parse-error message does not match the pattern: the pipeline fails without
invoking the text path. -/
theorem parseFailure_terminates_witness :
    extractFromPdf (fun _ => Except.error "Unexpected end of JSON input")
        (Except.ok (ApiMessage.mk [ContentBlock.text "no json here"]))
        (Except.ok Json.null) =
      (Except.error "Unexpected end of JSON input", 0) :=
  (parseFailure_terminates (fun _ => Except.error "Unexpected end of JSON input")
    (ApiMessage.mk [ContentBlock.text "no json here"]) (Except.ok Json.null)
    "Unexpected end of JSON input").1 rfl (by decide)

/-- C8: a document text within the 150000-character budget is submitted
unchanged; a longer text is cut to its first 150000 characters (a prefix
of the original, the excess dropped) with the truncation marker appended,
and that is what the fallback request submits. -/
theorem truncateExtractedText_spec (extractionPrompt pdfText : String) :
    (pdfText.length ≤ maxChars →
      truncateExtractedText pdfText = pdfText ∧
      submittedUserContent extractionPrompt pdfText =
        extractionPrompt ++ documentSeparator ++ pdfText) ∧
    (maxChars < pdfText.length →
      truncateExtractedText pdfText = pdfText.take maxChars ++ truncationMarker ∧
      (pdfText.take maxChars).length = maxChars ∧
      (pdfText.take maxChars).data <+: pdfText.data ∧
      submittedUserContent extractionPrompt pdfText =
        extractionPrompt ++ documentSeparator ++ (pdfText.take maxChars ++ truncationMarker)) := by
  constructor
  · intro hle
    have hnot : ¬(pdfText.length > maxChars) := not_lt.mpr hle
    constructor
    · simp [truncateExtractedText, hnot]
    · simp [submittedUserContent, truncateExtractedText, hnot]
  · intro hgt
    have htr : truncateExtractedText pdfText = pdfText.take maxChars ++ truncationMarker := by
      simp [truncateExtractedText, hgt]
    refine ⟨htr, ?_, ?_, by simp [submittedUserContent, htr]⟩
    · rw [← String.length_data, String.data_take, List.length_take, String.length_data]
      exact Nat.min_eq_left (Nat.le_of_lt hgt)
    · rw [String.data_take]
      exact ⟨pdfText.data.drop maxChars, List.take_append_drop maxChars pdfText.data⟩

/-- C8, witness: the theorem applied to a 150001-character text (truncated
with marker) and to a short text (submitted unchanged). -/
theorem truncateExtractedText_spec_witness :
    truncateExtractedText (String.mk (List.replicate 150001 'a')) =
      (String.mk (List.replicate 150001 'a')).take maxChars ++ truncationMarker ∧
    truncateExtractedText "short text" = "short text" :=
  ⟨((truncateExtractedText_spec "prompt" (String.mk (List.replicate 150001 'a'))).2
      (by rw [String.mk_length, List.length_replicate]; norm_num [maxChars])).1,
   ((truncateExtractedText_spec "prompt" "short text").1 (by decide)).1⟩

/-- C9, counterexample: for a caller who is not the record's owner, the
persistence helpers do not return an authorization failure — `get` returns
null (a silently-empty result, indistinguishable from a missing record)
and `delete` reports success (`true`) while deleting nothing. -/
theorem persistence_nonowner_counterexample :
    getExtraction [aliceRow] "bob" "row1" = none ∧
    deleteExtraction [aliceRow] "bob" "row1" = Except.ok true ∧
    deleteExtractionDb [aliceRow] "bob" "row1" = [aliceRow] :=
  ⟨by decide, rfl, by decide⟩

/-- C9, amended: row-level security isolates records per owner — a caller
who owns no row with the requested id can never read, modify, or delete
such a row: `get` yields null, `update` yields the zero-row error and
leaves the database unchanged, and `delete` leaves the database unchanged —
but the failures surface as empty results (and `delete` even reports
success), not as authorization failures. -/
theorem persistence_rls_isolation (db : List Row) (uid rid : String)
    (h : ∀ s ∈ db, s.id = rid → s.data.user_id ≠ uid) :
    getExtraction db uid rid = none ∧
    (∀ patch, updateExtraction db uid rid patch =
      Except.error "PGRST116: JSON object requested, multiple (or no) rows returned") ∧
    (∀ patch, updateExtractionDb db uid rid patch = db) ∧
    deleteExtractionDb db uid rid = db ∧
    deleteExtraction db uid rid = Except.ok true := by
  have hcond : ∀ r ∈ db, (visibleTo uid r && r.id == rid) = false := by
    intro r hr
    by_contra hne
    have htrue : (visibleTo uid r && r.id == rid) = true := by
      revert hne
      cases (visibleTo uid r && r.id == rid) <;> simp
    rw [Bool.and_eq_true] at htrue
    have hid : r.id = rid := by simpa using htrue.2
    have huser : r.data.user_id = uid := by simpa [visibleTo] using htrue.1
    exact h r hr hid huser
  have hsel : selectById db uid rid = [] := by
    apply List.filter_eq_nil_iff.mpr
    intro r hr
    rw [hcond r hr]
    exact Bool.false_ne_true
  refine ⟨?_, ?_, ?_, ?_, rfl⟩
  · simp [getExtraction, hsel, pgSingle]
  · intro patch
    simp [updateExtraction, hsel, pgSingle]
  · intro patch
    unfold updateExtractionDb
    calc db.map (fun r => if visibleTo uid r && r.id == rid
          then { r with data := patch r.data } else r)
        = db.map id := List.map_congr_left (fun r hr => by simp [hcond r hr])
      _ = db := List.map_id db
  · apply List.filter_eq_self.mpr
    intro r hr
    rw [hcond r hr]
    rfl

/-- C9, witness: the amended theorem applied to a one-row database owned
by `alice` and a caller `bob`. -/
theorem persistence_rls_isolation_witness :
    getExtraction [aliceRow] "carol" "row1" = none ∧
    deleteExtractionDb [aliceRow] "carol" "row1" = [aliceRow] :=
  ⟨(persistence_rls_isolation [aliceRow] "carol" "row1" (by decide)).1,
   (persistence_rls_isolation [aliceRow] "carol" "row1" (by decide)).2.2.2.1⟩

end Elkano
